import Mathlib

/-!
Verification development for `fetch_build_snapshot.py` (41st-Web).

The script reads six SQLite relations (register_status, user_credits,
user_daily, user_purchases, non_stacking_roles, role_credits), assembles a
per-user snapshot, and writes it as compact JSON via an atomic replace.
This file shallowly embeds the script: SQLite rows are records, each
relation is an `Option (List row)` where `Option.none` models a table that
is absent or whose read raised (the script swallows such errors with
`try/except: pass`), and the dynamically typed SQLite values fed to
`int_or_0` are a `PyVal` type covering the NULL / INTEGER / REAL / TEXT
storage classes (a finite REAL is an exact rational; SQLite stores NaN as
NULL, and an infinite REAL, on which `int()` raises, behaves like any
other value `int()` rejects).
-/

/-- Models a dynamically typed SQLite value as handed to Python: NULL, an
integer, a finite floating-point value (every finite float is an exact
rational), or a text value. -/
inductive PyVal where
  | null : PyVal
  | int (n : Int) : PyVal
  | real (q : ℚ) : PyVal
  | str (s : String) : PyVal
deriving DecidableEq, Repr

/-- Truncation toward zero of a rational, which is what Python's
`int(float)` computes on a finite float. -/
def truncRat (q : ℚ) : Int :=
  if 0 ≤ q.num then ((q.num.toNat / q.den : Nat) : Int)
  else -(((-q.num).toNat / q.den : Nat) : Int)

/-- First code points of the width-ten runs of Unicode decimal digits
(category Nd, Unicode 15.0, as used by CPython 3.12); Python's `int(str)`
accepts any of these digits, not only ASCII. -/
def ndRangeStarts : List Nat :=
  [0x0030, 0x0660, 0x06F0, 0x07C0, 0x0966, 0x09E6, 0x0A66, 0x0AE6, 0x0B66, 0x0BE6,
   0x0C66, 0x0CE6, 0x0D66, 0x0DE6, 0x0E50, 0x0ED0, 0x0F20, 0x1040, 0x1090, 0x17E0,
   0x1810, 0x1946, 0x19D0, 0x1A80, 0x1A90, 0x1B50, 0x1BB0, 0x1C40, 0x1C50, 0xA620,
   0xA8D0, 0xA900, 0xA9D0, 0xA9F0, 0xAA50, 0xABF0, 0xFF10, 0x104A0, 0x10D30, 0x11066,
   0x110F0, 0x11136, 0x111D0, 0x112F0, 0x11450, 0x114D0, 0x11650, 0x116C0, 0x11730,
   0x118E0, 0x11950, 0x11C50, 0x11D50, 0x11DA0, 0x11F50, 0x16A60, 0x16AC0, 0x16B50,
   0x1D7CE, 0x1D7D8, 0x1D7E2, 0x1D7EC, 0x1D7F6, 0x1E140, 0x1E2F0, 0x1E4F0, 0x1E950,
   0x1FBF0]

/-- Decimal value of a Unicode decimal digit, `Option.none` for any other
character. -/
def digitVal? (c : Char) : Option Nat :=
  (ndRangeStarts.find? (fun s => decide (s ≤ c.toNat ∧ c.toNat ≤ s + 9))).map
    (fun s => c.toNat - s)

/-- Code points Python's `int(str)` strips before parsing (the
`Py_UNICODE_ISSPACE` set, the same one `str.strip()` uses). -/
def pySpaceCodes : List Nat :=
  [0x09, 0x0A, 0x0B, 0x0C, 0x0D, 0x1C, 0x1D, 0x1E, 0x1F, 0x20, 0x85, 0xA0, 0x1680,
   0x2000, 0x2001, 0x2002, 0x2003, 0x2004, 0x2005, 0x2006, 0x2007, 0x2008, 0x2009,
   0x200A, 0x2028, 0x2029, 0x202F, 0x205F, 0x3000]

/-- Decides membership in the stripped whitespace set. -/
def isPySpace (c : Char) : Bool := pySpaceCodes.contains c.toNat

/-- Helper for `parseDigits`: accumulates decimal digits, allowing a single
underscore between two digits as Python's `int(str)` does. -/
def parseDigitsAux : Nat → List Char → Option Nat
  | acc, [] => some acc
  | acc, c :: rest =>
    match digitVal? c with
    | some v => parseDigitsAux (10 * acc + v) rest
    | Option.none =>
      if c = '_' then
        match rest with
        | [] => Option.none
        | d :: rest2 =>
          match digitVal? d with
          | some v => parseDigitsAux (10 * acc + v) rest2
          | Option.none => Option.none
      else Option.none

/-- Parses a nonempty decimal digit sequence (with Python's single
underscores between digits); fails on anything else. -/
def parseDigits : List Char → Option Nat
  | [] => Option.none
  | c :: rest =>
    match digitVal? c with
    | some v => parseDigitsAux v rest
    | Option.none => Option.none

/-- Strips leading and trailing whitespace, as Python's `int(str)` does
before parsing. -/
def stripChars (cs : List Char) : List Char :=
  ((cs.dropWhile isPySpace).reverse.dropWhile isPySpace).reverse

/-- Models Python's `int(s)` on a string: optional sign, decimal digits,
surrounding whitespace tolerated; `Option.none` when `int` would raise. -/
def pyIntOfString (s : String) : Option Int :=
  match stripChars s.data with
  | '+' :: rest => (parseDigits rest).map (fun n => (n : Int))
  | '-' :: rest => (parseDigits rest).map (fun n => -(n : Int))
  | cs => (parseDigits cs).map (fun n => (n : Int))

/-- Embeds `int_or_0` (source lines 48-52): `int(x)` with any exception
turned into 0. On a finite REAL, `int()` does not raise — it truncates
toward zero. -/
def int_or_0 (x : PyVal) : Int :=
  match x with
  | PyVal.int n => n
  | PyVal.real q => truncRat q
  | PyVal.str s => (pyIntOfString s).getD 0
  | PyVal.null => 0

/-- Decides whether a `PyVal` is a value Python's `int()` accepts without
raising. -/
def isValidInt : PyVal → Bool
  | PyVal.int _ => true
  | PyVal.real _ => true
  | PyVal.str s => (pyIntOfString s).isSome
  | PyVal.null => false

/-- User identifiers are opaque tokens; the script orders and emits them via
`str(uid)`, so the embedding carries them as strings. -/
abbrev UserId := String

/-- Row of the `user_credits` relation. -/
structure CreditRow where
  user_id : UserId
  current_credits : PyVal
  max_credits : PyVal
  removed_credits : PyVal
deriving DecidableEq, Repr

/-- Row of the `user_daily` relation; `last_claim` is an opaque value or
NULL. -/
structure DailyRow where
  user_id : UserId
  last_claim : Option String
  streak : PyVal
deriving DecidableEq, Repr

/-- Row of the `user_purchases` relation; `id` is the integer row id the
script sorts by (`ORDER BY id`). -/
structure PurchaseRow where
  id : Int
  user_id : UserId
  item_name : String
deriving DecidableEq, Repr

/-- Row of the `non_stacking_roles` / `role_credits` lookup relations. -/
structure RoleRow where
  role_name : String
  credit_amount : PyVal
deriving DecidableEq, Repr

/-- Result sets of the six relations; `Option.none` models a table that is
absent or whose read raised an exception (swallowed by the script's
`try/except: pass`). -/
structure Tables where
  register_status : Option (List UserId)
  user_credits : Option (List CreditRow)
  user_daily : Option (List DailyRow)
  user_purchases : Option (List PurchaseRow)
  non_stacking_roles : Option (List RoleRow)
  role_credits : Option (List RoleRow)

/-- Coerced credit fields stored per user (values of the `credits` dict). -/
structure CreditVals where
  current_credits : Int
  max_credits : Int
  removed_credits : Int
deriving DecidableEq, Repr

/-- Default zero-record used when a user has no `user_credits` row
(source line 67 and the `.get` default at line 113). -/
def defaultCredits : CreditVals := { current_credits := 0, max_credits := 0, removed_credits := 0 }

/-- Daily fields stored per user (values of the `daily` dict). -/
structure DailyVals where
  last_claim : Option String
  streak : Int
deriving DecidableEq, Repr

/-- Default daily record (source line 81 and the `.get` default at
line 114). -/
def defaultDaily : DailyVals := { last_claim := Option.none, streak := 0 }

/-- Coerces one `user_credits` row (source lines 72-76). -/
def creditValsOfRow (r : CreditRow) : CreditVals :=
  { current_credits := int_or_0 r.current_credits
  , max_credits := int_or_0 r.max_credits
  , removed_credits := int_or_0 r.removed_credits }

/-- Coerces one `user_daily` row (source line 86). -/
def dailyValsOfRow (r : DailyRow) : DailyVals :=
  { last_claim := r.last_claim, streak := int_or_0 r.streak }

/-- Models the `credits` dict of lines 67-78 viewed at key `u`: defaults,
then each row for `u` overwrites, so the last row read wins. -/
def creditsOf (rows : List CreditRow) (u : UserId) : CreditVals :=
  rows.foldl (fun acc r => if r.user_id == u then creditValsOfRow r else acc) defaultCredits

/-- Models the `daily` dict of lines 81-88 viewed at key `u`. -/
def dailyOf (rows : List DailyRow) (u : UserId) : DailyVals :=
  rows.foldl (fun acc r => if r.user_id == u then dailyValsOfRow r else acc) defaultDaily

/-- Models the `purchases` dict of lines 91-98 viewed at key `u`: each row
for `u` appends its item, in the order the rows are read. -/
def purchasesOf (rows : List PurchaseRow) (u : UserId) : List String :=
  rows.foldl (fun acc r => if r.user_id == u then acc ++ [r.item_name] else acc) []

/-- Models the `ORDER BY id` of the `user_purchases` query (line 94). -/
def sortById (rows : List PurchaseRow) : List PurchaseRow :=
  List.insertionSort (fun a b => a.id ≤ b.id) rows

/-- Models Python's `x or 0` on an integer (line 117). -/
def orInt (x : Int) : Int := if x = 0 then 0 else x

/-- One entry of the output `data` list (lines 110-118). -/
structure UserSnapshot where
  user_id : String
  registered : Bool
  credits : CreditVals
  daily : DailyVals
  purchases : List String
  net_credits : Int
deriving DecidableEq, Repr

/-- Assembles the per-user record of lines 110-118. `purRows` is the
id-ordered purchase list, `reg` the `register_status` id set. -/
def mkUser (reg : List UserId) (credRows : List CreditRow) (dailyRows : List DailyRow)
    (purRows : List PurchaseRow) (uid : UserId) : UserSnapshot :=
  let c := creditsOf credRows uid
  { user_id := uid
  , registered := reg.contains uid
  , credits := c
  , daily := dailyOf dailyRows uid
  , purchases := purchasesOf purRows uid
  , net_credits := orInt c.current_credits - orInt c.removed_credits }

/-- Concatenation of the user ids read from the four primary relations
(the ids fed into the `user_ids` set at lines 58-64), duplicates kept. -/
def rawUserIds (tb : Tables) : List UserId :=
  (tb.register_status.getD []) ++ (tb.user_credits.getD []).map CreditRow.user_id
    ++ (tb.user_daily.getD []).map DailyRow.user_id
    ++ (tb.user_purchases.getD []).map PurchaseRow.user_id

/-- The `user_ids` set of lines 58-64, as a duplicate-free list. -/
def allUserIds (tb : Tables) : List UserId := (rawUserIds tb).dedup

/-- The output `data` list: users sorted by the string form of the id
(line 109), each assembled by `mkUser`. -/
def buildUsers (tb : Tables) : List UserSnapshot :=
  (List.insertionSort (fun a b : UserId => a ≤ b) (allUserIds tb)).map
    (fun uid => mkUser (tb.register_status.getD []) (tb.user_credits.getD [])
      (tb.user_daily.getD []) (sortById (tb.user_purchases.getD [])) uid)

/-- One entry of the role lists (lines 121-128). -/
structure RoleEntry where
  role_name : String
  credit_amount : Int
deriving DecidableEq, Repr

/-- Embeds `read_roles` (lines 121-128): an unreadable table degrades to an
empty list. -/
def read_roles (rows : Option (List RoleRow)) : List RoleEntry :=
  (rows.getD []).map (fun r => { role_name := r.role_name, credit_amount := int_or_0 r.credit_amount })

/-- The top-level snapshot object (lines 135-139). -/
structure Snapshot where
  generated_at : Int
  data : List UserSnapshot
  roles_non_stacking : List RoleEntry
  roles_role_credits : List RoleEntry
deriving DecidableEq, Repr

/-- Embeds `build_snapshot` (lines 54-140): a pure function of the relation
result sets plus the current time `now` (= `int(time.time())`). -/
def build_snapshot (tb : Tables) (now : Int) : Snapshot :=
  { generated_at := now
  , data := buildUsers tb
  , roles_non_stacking := read_roles tb.non_stacking_roles
  , roles_role_credits := read_roles tb.role_credits }

/-- Hex digit character (lowercase), as in Python's json `\uXXXX` escapes. -/
def hexDigit (n : Nat) : Char :=
  if n < 10 then Char.ofNat (48 + n) else Char.ofNat (87 + n)

/-- Escapes one character the way `json.dump(..., ensure_ascii=False)`
does: backslash, quote, the short escapes, and `\u00XX` for other control
characters; everything else passes through. -/
def escChar (c : Char) : String :=
  if c = '"' then "\\\""
  else if c = '\\' then "\\\\"
  else if c = '\n' then "\\n"
  else if c = '\r' then "\\r"
  else if c = '\t' then "\\t"
  else if c.toNat = 8 then "\\b"
  else if c.toNat = 12 then "\\f"
  else if c.toNat < 32 then
    "\\u00" ++ String.singleton (hexDigit (c.toNat / 16)) ++ String.singleton (hexDigit (c.toNat % 16))
  else String.singleton c

/-- JSON string literal, Python-style. -/
def jsonStr (s : String) : String := "\"" ++ String.join (s.data.map escChar) ++ "\""

/-- JSON array with `json.dump`'s compact separator. -/
def serList {α : Type} (f : α → String) (l : List α) : String :=
  "[" ++ String.intercalate "," (l.map f) ++ "]"

/-- Serialization of the `credits` sub-object, key order as built at
lines 72-76 / line 67. -/
def serCredits (c : CreditVals) : String :=
  "\x7b\"current_credits\":" ++ toString c.current_credits
    ++ ",\"max_credits\":" ++ toString c.max_credits
    ++ ",\"removed_credits\":" ++ toString c.removed_credits ++ "\x7d"

/-- Serialization of the `daily` sub-object (NULL renders as `null`). -/
def serDaily (d : DailyVals) : String :=
  "\x7b\"last_claim\":"
    ++ (match d.last_claim with
        | some s => jsonStr s
        | Option.none => "null")
    ++ ",\"streak\":" ++ toString d.streak ++ "\x7d"

/-- Serialization of one `data` entry, key insertion order of
lines 110-118 (`net_credits` added last at line 117). -/
def serUser (u : UserSnapshot) : String :=
  "\x7b\"user_id\":" ++ jsonStr u.user_id
    ++ ",\"registered\":" ++ (if u.registered then "true" else "false")
    ++ ",\"credits\":" ++ serCredits u.credits
    ++ ",\"daily\":" ++ serDaily u.daily
    ++ ",\"purchases\":" ++ serList jsonStr u.purchases
    ++ ",\"net_credits\":" ++ toString u.net_credits ++ "\x7d"

/-- Serialization of one role entry (line 125). -/
def serRole (r : RoleEntry) : String :=
  "\x7b\"role_name\":" ++ jsonStr r.role_name
    ++ ",\"credit_amount\":" ++ toString r.credit_amount ++ "\x7d"

/-- Serialization of everything after the `generated_at` value: the `data`
list and the `roles` object, in the key order of lines 130-139. -/
def serTail (s : Snapshot) : String :=
  ",\"data\":" ++ serList serUser s.data
    ++ ",\"roles\":\x7b\"non_stacking_roles\":" ++ serList serRole s.roles_non_stacking
    ++ ",\"role_credits\":" ++ serList serRole s.roles_role_credits ++ "\x7d\x7d"

/-- Embeds `json.dump(snapshot, f, separators=(",", ":"),
ensure_ascii=False)` for the fixed snapshot schema (line 146): compact
separators, key insertion order preserved. -/
def serializeSnapshot (s : Snapshot) : String :=
  ("\x7b\"generated_at\":" ++ toString s.generated_at) ++ serTail s

/-- The part of the serialized document after the `generated_at` value; it
depends only on the table contents, not on the clock. -/
def serializeTail (tb : Tables) : String := serTail (build_snapshot tb 0)

/-- Steps of `atomic_write_json` (lines 142-150), in source order. -/
inductive WStep where
  | makedirs
  | mkstemp
  | serialize
  | flush
  | fsync
  | replace
  | chmod
deriving DecidableEq, Repr

/-- The step sequence of `atomic_write_json`. -/
def wsteps : List WStep :=
  [WStep.makedirs, WStep.mkstemp, WStep.serialize, WStep.flush, WStep.fsync, WStep.replace, WStep.chmod]

/-- Filesystem view during the durable write: content of the destination
path (if the file exists), content of the temporary file, and whether an
exception has aborted the sequence. -/
structure WState where
  dest : Option String
  tmp : Option String
  halted : Bool
deriving DecidableEq, Repr

/-- Effect of one successful step: only `replace` (an atomic `os.replace`)
ever changes the destination path. -/
def applyWStep (content : String) (st : WState) : WStep → WState
  | WStep.makedirs => st
  | WStep.mkstemp => { st with tmp := some "" }
  | WStep.serialize => { st with tmp := some content }
  | WStep.flush => st
  | WStep.fsync => st
  | WStep.replace => { st with dest := st.tmp, tmp := Option.none }
  | WStep.chmod => st

/-- Effect of a step that raises: the sequence halts; a failed `json.dump`
may leave arbitrary partial bytes `leftover` in the temporary file, never
in the destination. -/
def failWStep (leftover : String) (st : WState) : WStep → WState
  | WStep.serialize => { st with tmp := some leftover, halted := true }
  | _ => { st with halted := true }

/-- Embeds `atomic_write_json` (lines 142-150) with failure injection:
`failAt` names the step (if any) that raises; `dest0` is the prior content
of the destination path. -/
def atomic_write_json (content leftover : String) (failAt : Option WStep) (dest0 : Option String) : WState :=
  wsteps.foldl
    (fun st s =>
      if st.halted then st
      else if failAt = some s then failWStep leftover st s
      else applyWStep content st s)
    { dest := dest0, tmp := Option.none, halted := false }

/-- Filesystem view for the acquisition phase: the set of live temporary
files and the name `mkstemp` hands out next. -/
structure Sys where
  tmpFiles : List Nat
  nextName : Nat
deriving DecidableEq, Repr

/-- Models `tempfile.mkstemp`: creates a fresh temporary file. -/
def sysMkstemp (s : Sys) : Nat × Sys :=
  (s.nextName, { tmpFiles := s.nextName :: s.tmpFiles, nextName := s.nextName + 1 })

/-- Models `os.remove`. -/
def sysRemove (n : Nat) (s : Sys) : Sys := { s with tmpFiles := s.tmpFiles.erase n }

/-- Outcome of `download_to_tmp`: a local path, or `died` (the function
called `die`, i.e. `sys.exit`, inside its exception handlers). -/
inductive DlOutcome where
  | ok (path : Nat)
  | died
deriving DecidableEq, Repr

/-- Embeds `download_to_tmp` (lines 21-35) with failure injection:
`failOpen` makes `urlopen` raise (HTTP error or transport failure before
any file exists); `failRead` makes the body read / temp-file write raise
after `mkstemp` has already created the file. Neither handler removes the
temporary file. -/
def download_to_tmp (failOpen failRead : Bool) (s : Sys) : DlOutcome × Sys :=
  if failOpen then (DlOutcome.died, s)
  else
    let p := sysMkstemp s
    if failRead then (DlOutcome.died, p.2)
    else (DlOutcome.ok p.1, p.2)

/-- Final state of a remote-mode run. -/
structure RunResult where
  sys : Sys
  ok : Bool
deriving DecidableEq, Repr

/-- Embeds the remote branch of `main` (lines 162-177): on a successful
download, `tmp_db` is set and the `finally` block removes it whether or not
the later build/write steps (`failBuild`, `failWrite`) raise; when
`download_to_tmp` dies, `tmp_db` was never assigned and the `finally`
block removes nothing. -/
def mainRemote (failOpen failRead failBuild failWrite : Bool) (s : Sys) : RunResult :=
  match download_to_tmp failOpen failRead s with
  | (DlOutcome.died, s1) => { sys := s1, ok := false }
  | (DlOutcome.ok tmp, s1) => { sys := sysRemove tmp s1, ok := !failBuild && !failWrite }

/-- The source the run will read from. -/
inductive SourceChoice where
  | localPath (p : String)
  | remote (url : String)
deriving DecidableEq, Repr

/-- Embeds the source selection of `main` (lines 159-168): neither flag is
a fatal configuration error (`Option.none`); otherwise the `--db-url`
branch is tested first, so a remote reference wins over a local path. -/
def selectSource (db dbUrl : Option String) : Option SourceChoice :=
  match db, dbUrl with
  | Option.none, Option.none => Option.none
  | _, some u => some (SourceChoice.remote u)
  | some p, Option.none => some (SourceChoice.localPath p)

/-- On integers, Python's `x or 0` is the identity. -/
theorem orInt_eq (x : Int) : orInt x = x := by
  unfold orInt
  split
  · omega
  · rfl

/-- Projection helper: the `data` field of a built snapshot. -/
theorem build_snapshot_data (tb : Tables) (now : Int) :
    (build_snapshot tb now).data = buildUsers tb := rfl

/-- Projection helper: `mkUser` stores the identifier unchanged. -/
theorem mkUser_user_id (reg : List UserId) (credRows : List CreditRow)
    (dailyRows : List DailyRow) (purRows : List PurchaseRow) (uid : UserId) :
    (mkUser reg credRows dailyRows purRows uid).user_id = uid := rfl

/-- The `user_id` projection of the `data` list is exactly the sorted,
deduplicated id list. -/
theorem data_map_user_id (tb : Tables) (now : Int) :
    (build_snapshot tb now).data.map UserSnapshot.user_id
      = List.insertionSort (fun a b : UserId => a ≤ b) (allUserIds tb) := by
  rw [build_snapshot_data]
  unfold buildUsers
  rw [List.map_map]
  have h : (UserSnapshot.user_id ∘ fun uid =>
      mkUser (tb.register_status.getD []) (tb.user_credits.getD [])
        (tb.user_daily.getD []) (sortById (tb.user_purchases.getD [])) uid)
      = fun uid => uid := rfl
  rw [h, List.map_id']

/-- Last element of a list satisfying a predicate, scanning left to right
and keeping the most recent hit; this is the value a repeated dict
assignment leaves behind. -/
def lastMatch? {α : Type} (p : α → Bool) : List α → Option α
  | [] => Option.none
  | x :: xs =>
    match lastMatch? p xs with
    | some y => some y
    | Option.none => if p x then some x else Option.none

/-- Unfolding equation for `lastMatch?` on a cons cell. -/
theorem lastMatch?_cons {α : Type} (p : α → Bool) (x : α) (xs : List α) :
    lastMatch? p (x :: xs)
      = match lastMatch? p xs with
        | some y => some y
        | Option.none => if p x then some x else Option.none := rfl

/-- A left fold that overwrites its accumulator whenever the predicate
holds computes the last matching element (or keeps the default). -/
theorem foldl_if_update {α β : Type} (p : α → Bool) (g : α → β) :
    ∀ (rows : List α) (d : β),
      rows.foldl (fun acc r => if p r then g r else acc) d
        = ((lastMatch? p rows).map g).getD d := by
  intro rows
  induction rows with
  | nil => intro d; rfl
  | cons r rows ih =>
      intro d
      rw [List.foldl_cons, ih, lastMatch?_cons]
      cases h : lastMatch? p rows with
      | none =>
          cases hp : p r <;> simp [hp]
      | some y => simp

/-- A left fold that appends whenever the predicate holds computes the
filtered, mapped list. -/
theorem foldl_if_append {α β : Type} (p : α → Bool) (g : α → β) :
    ∀ (rows : List α) (acc : List β),
      rows.foldl (fun a r => if p r then a ++ [g r] else a) acc
        = acc ++ (rows.filter p).map g := by
  intro rows
  induction rows with
  | nil => intro acc; simp
  | cons r rows ih =>
      intro acc
      rw [List.foldl_cons, List.filter_cons]
      cases hp : p r <;> simp [ih]

/-- The per-key view of the `credits` dict is the last matching row,
coerced, or the zero default. -/
theorem creditsOf_eq (rows : List CreditRow) (u : UserId) :
    creditsOf rows u
      = ((lastMatch? (fun r => r.user_id == u) rows).map creditValsOfRow).getD defaultCredits :=
  foldl_if_update (fun r : CreditRow => r.user_id == u) creditValsOfRow rows defaultCredits

/-- The per-key view of the `daily` dict is the last matching row, coerced,
or the default. -/
theorem dailyOf_eq (rows : List DailyRow) (u : UserId) :
    dailyOf rows u
      = ((lastMatch? (fun r => r.user_id == u) rows).map dailyValsOfRow).getD defaultDaily :=
  foldl_if_update (fun r : DailyRow => r.user_id == u) dailyValsOfRow rows defaultDaily

/-- The per-key view of the `purchases` dict is the item list of all
matching rows, in read order. -/
theorem purchasesOf_eq (rows : List PurchaseRow) (u : UserId) :
    purchasesOf rows u
      = (rows.filter (fun r => r.user_id == u)).map PurchaseRow.item_name := by
  have h := foldl_if_append (fun r : PurchaseRow => r.user_id == u) PurchaseRow.item_name rows []
  rw [List.nil_append] at h
  exact h

instance : IsTotal PurchaseRow (fun a b => a.id ≤ b.id) :=
  ⟨fun a b => Int.le_total a.id b.id⟩

instance : IsTrans PurchaseRow (fun a b => a.id ≤ b.id) :=
  ⟨fun _ _ _ hab hbc => le_trans hab hbc⟩

/-- The id-ordered purchase rows really are sorted by row id. -/
theorem sortById_sorted (rows : List PurchaseRow) :
    List.Sorted (fun a b : Int => a ≤ b) ((sortById rows).map PurchaseRow.id) := by
  have h := List.sorted_insertionSort (fun a b : PurchaseRow => a.id ≤ b.id) rows
  exact List.Pairwise.map PurchaseRow.id (fun a b hab => hab) h

/-- C1: the user_id values of the output `data` list are duplicate-free
and are exactly the identifiers seen in the four primary relations
(register_status, user_credits, user_daily, user_purchases) — no extras,
no omissions. -/
theorem snapshot_ids_are_union (tb : Tables) (now : Int) :
    ((build_snapshot tb now).data.map UserSnapshot.user_id).Nodup ∧
    ∀ uid : UserId,
      uid ∈ (build_snapshot tb now).data.map UserSnapshot.user_id ↔ uid ∈ rawUserIds tb := by
  rw [data_map_user_id]
  constructor
  · exact ((List.perm_insertionSort _ _).nodup_iff).mpr (List.nodup_dedup _)
  · intro uid
    rw [(List.perm_insertionSort _ _).mem_iff]
    exact List.mem_dedup

/-- C9: the output `data` list is sorted ascending by the string form of
the user identifier. -/
theorem data_sorted_by_user_id (tb : Tables) (now : Int) :
    List.Sorted (fun a b : String => a ≤ b)
      ((build_snapshot tb now).data.map UserSnapshot.user_id) := by
  rw [data_map_user_id]
  exact List.sorted_insertionSort _ _

/-- C2: every emitted user record satisfies
`net_credits = credits.current_credits - credits.removed_credits`; the
value is recomputed (line 117), never read from a relation. -/
theorem net_credits_eq_sub (tb : Tables) (now : Int) (u : UserSnapshot)
    (hu : u ∈ (build_snapshot tb now).data) :
    u.net_credits = u.credits.current_credits - u.credits.removed_credits := by
  rw [build_snapshot_data] at hu
  unfold buildUsers at hu
  rw [List.mem_map] at hu
  obtain ⟨uid, -, rfl⟩ := hu
  show orInt (creditsOf (tb.user_credits.getD []) uid).current_credits
      - orInt (creditsOf (tb.user_credits.getD []) uid).removed_credits = _
  rw [orInt_eq, orInt_eq]
  rfl

/-- Sample relations with one fully populated user, for the C2 witness. -/
def tbW2 : Tables :=
  { register_status := some ["42"]
  , user_credits := some [{ user_id := "42", current_credits := PyVal.int 100
                          , max_credits := PyVal.int 0, removed_credits := PyVal.int 30 }]
  , user_daily := Option.none
  , user_purchases := Option.none
  , non_stacking_roles := Option.none
  , role_credits := Option.none }

/-- Expected snapshot entry for user "42" of `tbW2`. -/
def u42 : UserSnapshot :=
  { user_id := "42", registered := true
  , credits := { current_credits := 100, max_credits := 0, removed_credits := 30 }
  , daily := defaultDaily, purchases := [], net_credits := 70 }

/-- Witness for C2 at a concrete run. -/
theorem net_credits_eq_sub_witness :
    u42 ∈ (build_snapshot tbW2 0).data ∧
    u42.net_credits = u42.credits.current_credits - u42.credits.removed_credits :=
  ⟨by decide, net_credits_eq_sub tbW2 0 u42 (by decide)⟩

/-- C5 counterexample: the REAL value 5/2 is not a valid integer (its
reduced denominator is 2, not 1), yet `int_or_0` returns 2 — Python's
`int(2.5)` truncates — and not the 0 the claim demands for every value
that is not a valid integer. -/
theorem real_truncates_counterexample :
    (mkRat 5 2).den ≠ 1 ∧
    int_or_0 (PyVal.real (mkRat 5 2)) = 2 ∧
    int_or_0 (PyVal.real (mkRat 5 2)) ≠ 0 := by
  decide

/-- C5 (amended): `int_or_0` is total — it returns an integer for every
input value, never raising. Any value on which Python's `int()` raises
(NULL, or text that is not a valid integer literal) coerces to 0; a finite
REAL value instead truncates toward zero. -/
theorem int_or_0_zero_or_truncate (x : PyVal) (q : ℚ) (h : isValidInt x = false) :
    int_or_0 x = 0 ∧ int_or_0 (PyVal.real q) = truncRat q := by
  refine ⟨?_, rfl⟩
  cases x with
  | null => rfl
  | int n => simp [isValidInt] at h
  | real r => simp [isValidInt] at h
  | str s =>
      simp only [isValidInt] at h
      cases ho : pyIntOfString s with
      | none => simp [int_or_0, ho]
      | some n => rw [ho] at h; simp at h

/-- Witness for the amended C5: a non-numeric text value coerces to 0 and
the REAL value 5/2 truncates. -/
theorem int_or_0_zero_or_truncate_witness :
    isValidInt (PyVal.str "n/a") = false ∧
    (int_or_0 (PyVal.str "n/a") = 0 ∧
     int_or_0 (PyVal.real (mkRat 5 2)) = truncRat (mkRat 5 2)) :=
  ⟨by decide, int_or_0_zero_or_truncate (PyVal.str "n/a") (mkRat 5 2) (by decide)⟩

/-- Sanity check for the digit model: Python's `int()` accepts Unicode
decimal digits (here Arabic-Indic), not only ASCII. -/
theorem pyIntOfString_unicode_digits : pyIntOfString "١٢٣" = some 123 := by decide

/-- C4: the run never aborts on a missing/unreadable relation
(`build_snapshot` is total over `Option`-valued relations), and each absent
relation leaves its documented defaults in every emitted record: zero
credits (hence net 0), default daily (streak 0, absent last_claim), empty
purchases, unregistered. -/
theorem missing_relation_defaults (tb : Tables) (now : Int) (u : UserSnapshot)
    (hu : u ∈ (build_snapshot tb now).data) :
    (tb.user_credits = Option.none → u.credits = defaultCredits ∧ u.net_credits = 0) ∧
    (tb.user_daily = Option.none → u.daily = defaultDaily) ∧
    (tb.user_purchases = Option.none → u.purchases = []) ∧
    (tb.register_status = Option.none → u.registered = false) := by
  rw [build_snapshot_data] at hu
  unfold buildUsers at hu
  rw [List.mem_map] at hu
  obtain ⟨uid, -, rfl⟩ := hu
  refine ⟨fun h => ?_, fun h => ?_, fun h => ?_, fun h => ?_⟩ <;>
    simp [mkUser, h, creditsOf, dailyOf, purchasesOf, sortById, orInt, defaultCredits]

/-- Sample relations where only `user_credits` is readable, for the C4
witness. -/
def tbW4 : Tables :=
  { register_status := Option.none
  , user_credits := some [{ user_id := "7", current_credits := PyVal.int 5
                          , max_credits := PyVal.int 5, removed_credits := PyVal.int 2 }]
  , user_daily := Option.none
  , user_purchases := Option.none
  , non_stacking_roles := Option.none
  , role_credits := Option.none }

/-- Expected snapshot entry for user "7" of `tbW4`. -/
def u7 : UserSnapshot :=
  { user_id := "7", registered := false
  , credits := { current_credits := 5, max_credits := 5, removed_credits := 2 }
  , daily := defaultDaily, purchases := [], net_credits := 3 }

/-- Witness for C4 at a concrete run whose daily, purchases and
registration relations are all unreadable. -/
theorem missing_relation_defaults_witness :
    u7 ∈ (build_snapshot tbW4 0).data ∧
    ((tbW4.user_credits = Option.none → u7.credits = defaultCredits ∧ u7.net_credits = 0) ∧
     (tbW4.user_daily = Option.none → u7.daily = defaultDaily) ∧
     (tbW4.user_purchases = Option.none → u7.purchases = []) ∧
     (tbW4.register_status = Option.none → u7.registered = false)) :=
  ⟨by decide, missing_relation_defaults tbW4 0 u7 (by decide)⟩

/-- C10: for every emitted record, the credits (resp. daily) fields come
from the last `user_credits` (resp. `user_daily`) row read for that
identifier — earlier rows are overwritten — while every `user_purchases`
row for the identifier contributes one item, taken from the rows in
ascending row-id order. -/
theorem duplicate_row_semantics (tb : Tables) (now : Int) (u : UserSnapshot)
    (hu : u ∈ (build_snapshot tb now).data) :
    u.credits = ((lastMatch? (fun r => r.user_id == u.user_id)
        (tb.user_credits.getD [])).map creditValsOfRow).getD defaultCredits ∧
    u.daily = ((lastMatch? (fun r => r.user_id == u.user_id)
        (tb.user_daily.getD [])).map dailyValsOfRow).getD defaultDaily ∧
    u.purchases = ((sortById (tb.user_purchases.getD [])).filter
        (fun r => r.user_id == u.user_id)).map PurchaseRow.item_name ∧
    List.Sorted (fun a b : Int => a ≤ b)
      ((sortById (tb.user_purchases.getD [])).map PurchaseRow.id) := by
  rw [build_snapshot_data] at hu
  unfold buildUsers at hu
  rw [List.mem_map] at hu
  obtain ⟨uid, -, rfl⟩ := hu
  refine ⟨?_, ?_, ?_, sortById_sorted _⟩
  · show creditsOf (tb.user_credits.getD []) uid = _
    rw [creditsOf_eq]
    rfl
  · show dailyOf (tb.user_daily.getD []) uid = _
    rw [dailyOf_eq]
    rfl
  · show purchasesOf (sortById (tb.user_purchases.getD [])) uid = _
    rw [purchasesOf_eq]
    rfl

/-- Sample relations with duplicate rows for one user and out-of-order
purchase ids, for the C10 witness. -/
def tbW10 : Tables :=
  { register_status := Option.none
  , user_credits := some
      [ { user_id := "9", current_credits := PyVal.int 1
        , max_credits := PyVal.int 1, removed_credits := PyVal.int 0 }
      , { user_id := "9", current_credits := PyVal.int 7
        , max_credits := PyVal.int 8, removed_credits := PyVal.int 2 } ]
  , user_daily := some
      [ { user_id := "9", last_claim := some "2024-01-01", streak := PyVal.int 3 }
      , { user_id := "9", last_claim := some "2024-02-02", streak := PyVal.str "5" } ]
  , user_purchases := some
      [ { id := 2, user_id := "9", item_name := "shield" }
      , { id := 1, user_id := "9", item_name := "sword" } ]
  , non_stacking_roles := Option.none
  , role_credits := Option.none }

/-- Expected snapshot entry for user "9" of `tbW10`: later rows win, and
the purchases come back in row-id order. -/
def u9 : UserSnapshot :=
  { user_id := "9", registered := false
  , credits := { current_credits := 7, max_credits := 8, removed_credits := 2 }
  , daily := { last_claim := some "2024-02-02", streak := 5 }
  , purchases := ["sword", "shield"], net_credits := 5 }

/-- Witness for C10 at a concrete run with duplicate rows. -/
theorem duplicate_row_semantics_witness :
    u9 ∈ (build_snapshot tbW10 0).data ∧
    (u9.credits = ((lastMatch? (fun r => r.user_id == u9.user_id)
        (tbW10.user_credits.getD [])).map creditValsOfRow).getD defaultCredits ∧
     u9.daily = ((lastMatch? (fun r => r.user_id == u9.user_id)
        (tbW10.user_daily.getD [])).map dailyValsOfRow).getD defaultDaily ∧
     u9.purchases = ((sortById (tbW10.user_purchases.getD [])).filter
        (fun r => r.user_id == u9.user_id)).map PurchaseRow.item_name ∧
     List.Sorted (fun a b : Int => a ≤ b)
       ((sortById (tbW10.user_purchases.getD [])).map PurchaseRow.id)) :=
  ⟨by decide, duplicate_row_semantics tbW10 0 u9 (by decide)⟩

/-- C3: in every outcome the destination path holds either its previous
content or the complete new document (never the partial bytes a failed
`json.dump` may leave in the temporary file), and whenever the injected
failure strikes any step other than the final `chmod` — in particular at
temp-file creation, serialization, flush or sync, all before the replace
succeeds — the previous destination content is untouched. -/
theorem atomic_write_preserves_dest (content leftover : String) (dest0 : Option String)
    (failAt : Option WStep) :
    ((atomic_write_json content leftover failAt dest0).dest = dest0 ∨
      (atomic_write_json content leftover failAt dest0).dest = some content) ∧
    (∀ s : WStep, failAt = some s → s ≠ WStep.chmod →
      (atomic_write_json content leftover failAt dest0).dest = dest0) := by
  constructor
  · cases failAt with
    | none => exact Or.inr rfl
    | some s =>
        cases s with
        | makedirs => exact Or.inl rfl
        | mkstemp => exact Or.inl rfl
        | serialize => exact Or.inl rfl
        | flush => exact Or.inl rfl
        | fsync => exact Or.inl rfl
        | replace => exact Or.inl rfl
        | chmod => exact Or.inr rfl
  · intro s hs hne
    subst hs
    cases s with
    | makedirs => rfl
    | mkstemp => rfl
    | serialize => rfl
    | flush => rfl
    | fsync => rfl
    | replace => rfl
    | chmod => exact absurd rfl hne

/-- Witness for C3: a failure during serialization leaves the old
destination content in place. -/
theorem atomic_write_preserves_dest_witness :
    (atomic_write_json "new-doc" "garbled" (some WStep.serialize) (some "old-doc")).dest
      = some "old-doc" :=
  (atomic_write_preserves_dest "new-doc" "garbled" (some "old-doc")
    (some WStep.serialize)).2 WStep.serialize rfl (by decide)

/-- C6 counterexample: with both a local path and a remote reference on
the command line, `main` takes the `--db-url` branch first, so the remote
reference — not the local path — is the source honored. -/
theorem local_wins_counterexample :
    selectSource (some "credits.db") (some "https://example.com/credits.db")
        = some (SourceChoice.remote "https://example.com/credits.db") ∧
    selectSource (some "credits.db") (some "https://example.com/credits.db")
        ≠ some (SourceChoice.localPath "credits.db") := by
  exact ⟨rfl, by decide⟩

/-- C6 (amended): when both a local path and a remote reference are
supplied, the remote reference is the one honored (remote silently wins). -/
theorem both_given_remote_wins (p u : String) :
    selectSource (some p) (some u) = some (SourceChoice.remote u) := rfl

/-- C7: two runs over unchanged relations serialize to byte-identical
documents except for the `generated_at` value; everything after that value
(`serializeTail`) is a pure function of the relation contents alone. -/
theorem rebuild_differs_only_in_generated_at (tb : Tables) (t1 t2 : Int) :
    serializeSnapshot (build_snapshot tb t1)
        = ("\x7b\"generated_at\":" ++ toString t1) ++ serializeTail tb ∧
    serializeSnapshot (build_snapshot tb t2)
        = ("\x7b\"generated_at\":" ++ toString t2) ++ serializeTail tb :=
  ⟨rfl, rfl⟩

/-- C8 counterexample: when the fetch fails after `mkstemp` (a transport
error while reading the body, or a write error), `download_to_tmp` dies
before returning, `tmp_db` is never assigned, and the `finally` block in
`main` removes nothing — the temporary file remains on disk. -/
theorem fetch_failure_leaks_tmp :
    (mainRemote false true false false { tmpFiles := [], nextName := 0 }).sys.tmpFiles = [0] ∧
    (mainRemote false true false false { tmpFiles := [], nextName := 0 }).sys.tmpFiles ≠ [] := by
  exact ⟨rfl, by decide⟩

/-- C8 (amended): except when the download fails after temp-file creation
(body read / temp write), no temporary file survives the run: a failure at
connection time creates no file, and once `tmp_db` is assigned the
`finally` block removes it whether or not the build or write steps fail. -/
theorem tmp_cleanup_otherwise (failOpen failBuild failWrite : Bool) (s : Sys) :
    (mainRemote failOpen false failBuild failWrite s).sys.tmpFiles = s.tmpFiles := by
  cases failOpen with
  | true => rfl
  | false =>
      show (sysRemove s.nextName
        { tmpFiles := s.nextName :: s.tmpFiles, nextName := s.nextName + 1 }).tmpFiles = s.tmpFiles
    
      exact List.erase_cons_head s.nextName s.tmpFiles
